import Mathlib

/-!
Shallow embedding of the gstoken session and token lifecycle engine.

Sources embedded here:
- `core/types.go` — records (Session, LoginInfo, RefreshTokenInfo, Role, Config),
  enumerations (TokenStyle, LoginMode) and the error-message constants;
- `core/keys.go` — the key namespace service (with the default prefix "gstoken");
- `storage` memory backend — Set/Get/Delete/Exists/Keys over an association list,
  with absolute expiry instants as in MemoryItem;
- `auth/session.go` — SessionServiceImpl (CreateSession/GetSession/UpdateSession/
  DeleteSession/KickOut);
- `auth` Service — Login, Logout, LogoutByUserID, GetLoginInfo, handleLoginMode,
  kickOutSameDevice, storeLoginInfo, storeRefreshToken, RefreshAccessToken;
- `auth/engine.go` — Engine.Login/Logout/Verify;
- `auth/permission.go` — PermissionService.CheckPermission/CheckRole;
- `token/generator.go` — Generator.Generate and the custom-style dispatch.

Time is modelled as Go does it: instants and durations are nanosecond counts
(naturals). `time.Time.After b` is strict `· > b`; `t.Add d` is `t + d`.
Storage values are structured records; the JSON serialisation performed by the
Go storage backends is faithful on these records (Marshal then Unmarshal is
the identity), so a stored record is read back as itself, and reading a value
of the wrong shape is the Unmarshal/type-assertion failure of the source.
-/

namespace GST

/-- Go `time.Second` in nanoseconds. -/
def second : Nat := 1000000000

/-- Go `time.Hour` in nanoseconds. -/
def hour : Nat := 3600 * second

/-- Go error values as produced by `errors.New` (msg) and by
`fmt.Errorf "%s: %w"` wrapping (wrap). -/
inductive GoErr where
  | msg (s : String)
  | wrap (s : String) (e : GoErr)
  deriving Repr, DecidableEq

/-- core/types.go error-message constants (the subset reached by the engine). -/
def ErrMsgUserIDEmpty : String := "用户ID不能为空"
def ErrMsgTokenEmpty : String := "Token不能为空"
def ErrMsgTokenExpired : String := "Token已过期"
def ErrMsgSessionNotExists : String := "会话不存在"
def ErrMsgGetSessionData : String := "获取会话数据失败"
def ErrMsgSessionDataFormat : String := "会话数据格式错误，期望字节数组"
def ErrMsgCheckSessionExists : String := "检查会话是否存在失败"
def ErrMsgDeleteSessionData : String := "删除会话数据失败"
def ErrMsgGetUserSessionList : String := "获取用户会话列表失败"
def ErrMsgHandleLoginMode : String := "处理登录模式失败"
def ErrMsgGenerateToken : String := "生成Token失败"
def ErrMsgGenerateRefreshToken : String := "生成刷新Token失败"
def ErrMsgCreateSession : String := "创建会话失败"
def ErrMsgStoreLoginInfo : String := "存储登录信息失败"
def ErrMsgStoreUserSessionMap : String := "存储用户会话映射失败"
def ErrMsgStoreRefreshToken : String := "存储刷新Token失败"
def ErrMsgDeleteSession : String := "删除会话失败"
def ErrMsgDeleteLoginInfo : String := "删除登录信息失败"
def ErrMsgGetLoginInfo : String := "获取登录信息失败"
def ErrMsgStorageDataFormat : String := "存储数据格式错误，期望字节数组"
def ErrMsgGetRefreshTokenInfo : String := "获取刷新Token信息失败"
def ErrMsgRefreshTokenExpired : String := "刷新Token已过期"
def ErrMsgRefreshTokenEmpty : String := "刷新Token不能为空"
def ErrMsgGenerateNewAccessToken : String := "生成新访问Token失败"
def ErrMsgGenerateNewRefreshToken : String := "生成新刷新Token失败"
def ErrMsgCreateNewSession : String := "创建新会话失败"
def ErrMsgStoreNewLoginInfo : String := "存储新登录信息失败"
def ErrMsgStoreNewRefreshToken : String := "存储新刷新Token失败"
def ErrMsgGetSessionInfo : String := "获取会话信息失败"
def ErrMsgPermissionEmpty : String := "权限标识不能为空"
def ErrMsgRoleIDEmpty : String := "角色ID不能为空"
def ErrMsgUserRoleProviderEmpty : String :=
  "用户角色提供者未设置，请调用 SetUserRoleProvider 方法"
def ErrMsgGetUserRoles : String := "获取用户角色失败"
def ErrMsgCustomFuncNotRegistered : String := "自定义Token生成函数未注册"

/-- core/types.go `PermissionWildcard`. -/
def PermissionWildcard : String := "*"

/-- Open-ended extra attributes. Go uses map[string]interface{}; the engine
only ever carries these through unchanged, so an association list of strings
is a faithful carrier. -/
abbrev Extra := List (String × String)

/-- core/types.go `TokenStyle`. -/
inductive TokenStyle where
  | styleUUID
  | styleUUIDSimple
  | styleRandom32
  | styleRandom64
  | styleRandom128
  | styleTik
  | styleCustom
  deriving Repr, DecidableEq

/-- core/types.go `LoginMode`. -/
inductive LoginMode where
  | singleLogin
  | multiLogin
  | mutexLogin
  deriving Repr, DecidableEq

/-- core/types.go `Session`. -/
structure Session where
  id : String
  userID : String
  token : String
  device : String
  ip : String
  loginTime : Nat
  lastAccess : Nat
  extra : Extra
  deriving Repr, DecidableEq

/-- core/types.go `LoginInfo`. -/
structure LoginInfo where
  userID : String
  token : String
  device : String
  ip : String
  loginTime : Nat
  lastAccess : Nat
  extra : Extra
  deriving Repr, DecidableEq

/-- core/types.go `RefreshTokenInfo`. -/
structure RefreshTokenInfo where
  refreshToken : String
  userID : String
  device : String
  createdAt : Nat
  expiresAt : Nat
  extra : Extra
  deriving Repr, DecidableEq

/-- core/types.go `Role`. -/
structure Role where
  id : String
  name : String
  permissions : List String
  deriving Repr, DecidableEq

/-- core/types.go `UserInfo`. -/
structure UserInfo where
  id : String
  username : String
  roles : List String
  extra : Extra
  deriving Repr, DecidableEq

/-- core/types.go `LoginRequest`. -/
structure LoginRequest where
  userID : String
  device : String
  ip : String
  extra : Extra
  deriving Repr, DecidableEq

/-- core/types.go `LoginResponse`. -/
structure LoginResponse where
  token : String
  refreshToken : String
  expireTime : Nat
  userInfo : UserInfo
  deriving Repr, DecidableEq

/-- The engine-facing part of core/types.go `Config` (storage connection
parameters are irrelevant to the embedded semantics). -/
structure Config where
  tokenExpire : Nat
  refreshExpire : Nat
  tokenStyle : TokenStyle
  loginMode : LoginMode
  autoRenew : Bool
  rememberDays : Nat
  deriving Repr, DecidableEq

/-! ## Key namespace service (core/keys.go), with the default prefix
`"gstoken"` chosen by `NewKeyService` when none is configured. -/

def loginInfoKey (token : String) : String := "gstoken:login:" ++ token

def refreshTokenKey (refreshToken : String) : String := "gstoken:refresh:" ++ refreshToken

def sessionKey (token : String) : String := "gstoken:session:" ++ token

def userSessionKey (userID token : String) : String :=
  "gstoken:user_session:" ++ userID ++ ":" ++ token

def userSessionPattern (userID : String) : String :=
  "gstoken:user_session:" ++ userID ++ ":*"

/-! ## Memory storage backend

`MemoryStorage` keeps a map from key to `MemoryItem` (value plus absolute
expiry instant, zero meaning no expiry). It is modelled as an association
list kept duplicate-free by construction; `Option Nat` stands for the
expiry instant, `none` for Go's zero `time.Time`. -/

/-- The values the engine ever stores: the raw token string kept under a
user-session index key, and the three JSON records. -/
inductive StoredVal where
  | str (s : String)
  | sess (s : Session)
  | login (l : LoginInfo)
  | refresh (r : RefreshTokenInfo)
  deriving Repr, DecidableEq

structure Entry where
  key : String
  val : StoredVal
  expireTime : Option Nat
  deriving Repr, DecidableEq

abbrev Store := List Entry

/-- First entry stored under a key (the map lookup of sync.Map.Load). -/
def findEntry (st : Store) (k : String) : Option Entry :=
  st.find? (fun e => e.key == k)

/-- Remove every entry stored under a key. -/
def eraseKey (st : Store) (k : String) : Store :=
  st.filter (fun e => e.key != k)

/-- The absolute expiry instant computed by MemoryStorage.Set:
`if expire > 0 { expireTime = now.Add(expire) }`, zero time otherwise. -/
def expOf (now ttl : Nat) : Option Nat :=
  if ttl > 0 then some (now + ttl) else none

/-- MemoryStorage.Set. -/
def storeSet (st : Store) (now : Nat) (k : String) (v : StoredVal) (ttl : Nat) : Store :=
  { key := k, val := v, expireTime := expOf now ttl } :: eraseKey st k

/-- MemoryStorage.Delete. -/
def storeDelete (st : Store) (k : String) : Store :=
  eraseKey st k

/-- MemoryStorage.Get: not-found and expired lookups fail (an expired entry
is deleted on the way); storage mutation is returned alongside. -/
def storeGet (st : Store) (now : Nat) (k : String) : Except GoErr StoredVal × Store :=
  match findEntry st k with
  | none => (.error (.msg ("key not found: " ++ k)), st)
  | some e =>
    match e.expireTime with
    | some exp =>
      if now > exp then (.error (.msg ("key expired: " ++ k)), storeDelete st k)
      else (.ok e.val, st)
    | none => (.ok e.val, st)

/-- MemoryStorage.Exists: `_, err := Get key; return err == nil, nil`. -/
def storeExists (st : Store) (now : Nat) (k : String) : Bool × Store :=
  match storeGet st now k with
  | (.ok _, st2) => (true, st2)
  | (.error _, st2) => (false, st2)

/-- MemoryStorage.matchPattern: `"*"` matches everything; a pattern holding a
`'*'` matches by the prefix before its first `'*'` (strings.Split(pattern,"*")[0]
under strings.HasPrefix); otherwise exact equality. -/
def matchPattern (key pat : String) : Bool :=
  if pat = "*" then true
  else if pat.data.contains ('*') then
    List.isPrefixOf (pat.data.takeWhile (fun c => c ≠ ('*'))) key.data
  else key = pat

/-- MemoryStorage.Keys: every key matching the pattern (expiry is not
consulted by the scan). -/
def storeKeys (st : Store) (pat : String) : List String :=
  (st.filter (fun e => matchPattern e.key pat)).map (fun e => e.key)

/-! ## Token generator (token/generator.go)

The random built-in styles (UUID, simple UUID, fixed-length hex, tik and the
default branch of the switch) draw entropy; the draw made for one Generate
call is passed in explicitly as `ent` and those branches return it. The
custom style dispatches to the registered function exactly as the source. -/

structure Generator where
  style : TokenStyle
  customFunc : Option (Extra → Except GoErr String)

/-- Generator.generateCustom. -/
def generateCustom (g : Generator) (extra : Extra) : Except GoErr String :=
  match g.customFunc with
  | none => .error (.msg ErrMsgCustomFuncNotRegistered)
  | some f => f extra

/-- Generator.Generate: the switch over the selected style. -/
def generate (g : Generator) (ent : String) (extra : Extra) : Except GoErr String :=
  match g.style with
  | .styleCustom => generateCustom g extra
  | _ => .ok ent

/-! ## Session service (auth/session.go)

Each operation takes the store and the current instant and returns its Go
result together with the possibly mutated store. The memory backend's
Set/Delete never fail, so the source's wrap-and-return branches on those
calls are unreachable and do not appear. -/

/-- SessionServiceImpl.CreateSession. -/
def createSession (cfg : Config) (st : Store) (now : Nat) (s : Session) :
    Except GoErr Unit × Store :=
  if s.token = "" then (.error (.msg ErrMsgTokenEmpty), st)
  else if s.userID = "" then (.error (.msg ErrMsgUserIDEmpty), st)
  else
    let st1 := storeSet st now (sessionKey s.token) (.sess s) cfg.tokenExpire
    let st2 := storeSet st1 now (userSessionKey s.userID s.token) (.str s.token) cfg.tokenExpire
    (.ok (), st2)

/-- SessionServiceImpl.GetSession. A stored value of any other shape fails
to decode into a Session (the source's type-assertion / Unmarshal errors,
conflated here into the data-format message). -/
def getSession (st : Store) (now : Nat) (token : String) :
    Except GoErr Session × Store :=
  if token = "" then (.error (.msg ErrMsgTokenEmpty), st)
  else
    match storeGet st now (sessionKey token) with
    | (.error e, st2) => (.error (.wrap ErrMsgGetSessionData e), st2)
    | (.ok v, st2) =>
      match v with
      | .sess s => (.ok s, st2)
      | _ => (.error (.msg ErrMsgSessionDataFormat), st2)

/-- SessionServiceImpl.UpdateSession. -/
def updateSession (cfg : Config) (st : Store) (now : Nat) (s : Session) :
    Except GoErr Unit × Store :=
  if s.token = "" then (.error (.msg ErrMsgTokenEmpty), st)
  else
    match storeExists st now (sessionKey s.token) with
    | (false, st2) => (.error (.msg ErrMsgSessionNotExists), st2)
    | (true, st2) =>
      (.ok (), storeSet st2 now (sessionKey s.token) (.sess s) cfg.tokenExpire)

/-- SessionServiceImpl.DeleteSession: an absent session is success; the
session record and the user-session index record are removed. -/
def deleteSession (st : Store) (now : Nat) (token : String) :
    Except GoErr Unit × Store :=
  if token = "" then (.error (.msg ErrMsgTokenEmpty), st)
  else
    match getSession st now token with
    | (.error _, st2) => (.ok (), st2)
    | (.ok s, st2) =>
      let st3 := storeDelete st2 (sessionKey token)
      let st4 := storeDelete st3 (userSessionKey s.userID token)
      (.ok (), st4)

/-- Decoding of a scanned index value back into a token string. The source
reads the stored bytes and json.Unmarshals them into a string, falling back
to the raw byte text when the stored JSON is not a string; in this structured
model the fallback raw text of a non-string record is its rendering. -/
def scannedToken (v : StoredVal) : String :=
  match v with
  | .str s => s
  | v => reprStr v

/-- SessionServiceImpl.KickOut: scan the user-session pattern, read each
indexed token (skipping unreadable entries) and delete its session. -/
def kickOut (st : Store) (now : Nat) (userID : String) :
    Except GoErr Unit × Store :=
  if userID = "" then (.error (.msg ErrMsgUserIDEmpty), st)
  else
    let keys := storeKeys st (userSessionPattern userID)
    let stF := keys.foldl (fun acc k =>
      match storeGet acc now k with
      | (.error _, acc1) => acc1
      | (.ok v, acc1) => (deleteSession acc1 now (scannedToken v)).2) st
    (.ok (), stF)

/-! ## Auth service (auth Service) and engine (auth/engine.go) -/

/-- The token-generation attribute map built by Service.Login. -/
def loginTokenExtra (req : LoginRequest) : Extra :=
  [("user_id", req.userID), ("device", req.device), ("ip", req.ip)] ++ req.extra

/-- Service.GetLoginInfo. -/
def getLoginInfo (st : Store) (now : Nat) (token : String) :
    Except GoErr LoginInfo × Store :=
  match storeGet st now (loginInfoKey token) with
  | (.error e, st2) => (.error (.wrap ErrMsgGetLoginInfo e), st2)
  | (.ok v, st2) =>
    match v with
    | .login l => (.ok l, st2)
    | _ => (.error (.msg ErrMsgStorageDataFormat), st2)

/-- Service.getRefreshTokenInfo. -/
def getRefreshTokenInfo (st : Store) (now : Nat) (refreshToken : String) :
    Except GoErr RefreshTokenInfo × Store :=
  match storeGet st now (refreshTokenKey refreshToken) with
  | (.error e, st2) => (.error (.wrap ErrMsgGetRefreshTokenInfo e), st2)
  | (.ok v, st2) =>
    match v with
    | .refresh r => (.ok r, st2)
    | _ => (.error (.msg ErrMsgStorageDataFormat), st2)

/-- Service.kickOutSameDevice: delete only the sessions of this user whose
device label equals the requesting device. -/
def kickOutSameDevice (st : Store) (now : Nat) (userID device : String) :
    Except GoErr Unit × Store :=
  let keys := storeKeys st (userSessionPattern userID)
  let stF := keys.foldl (fun acc k =>
    match storeGet acc now k with
    | (.error _, acc1) => acc1
    | (.ok v, acc1) =>
      match getSession acc1 now (scannedToken v) with
      | (.error _, acc2) => acc2
      | (.ok s, acc2) =>
        if s.device = device then (deleteSession acc2 now s.token).2 else acc2) st
  (.ok (), stF)

/-- Service.handleLoginMode. -/
def handleLoginMode (cfg : Config) (st : Store) (now : Nat) (req : LoginRequest) :
    Except GoErr Unit × Store :=
  match cfg.loginMode with
  | .singleLogin => kickOut st now req.userID
  | .mutexLogin => kickOutSameDevice st now req.userID req.device
  | .multiLogin => (.ok (), st)

/-- The refresh lifetime Service.Login computes: the configured refresh TTL
when positive, otherwise remember-days interpreted as days of 24 hours. -/
def effRefreshExpire (cfg : Config) : Nat :=
  if cfg.refreshExpire > 0 then cfg.refreshExpire
  else if cfg.rememberDays > 0 then cfg.rememberDays * 24 * hour
  else 0

/-- Service.Login. `ent1` and `ent2` are the entropy draws of the two
Generate calls (access token, then refresh token). Note the source passes
`config.RefreshExpire` — not the computed refresh lifetime — as the storage
TTL of the RefreshTokenInfo record (`storeRefreshToken`). -/
def serviceLogin (cfg : Config) (g : Generator) (ent1 ent2 : String)
    (st : Store) (now : Nat) (req : LoginRequest) :
    Except GoErr LoginResponse × Store :=
  match handleLoginMode cfg st now req with
  | (.error e, st2) => (.error (.wrap ErrMsgHandleLoginMode e), st2)
  | (.ok _, st1) =>
    match generate g ent1 (loginTokenExtra req) with
    | .error e => (.error (.wrap ErrMsgGenerateToken e), st1)
    | .ok token =>
      let refreshExpire := effRefreshExpire cfg
      match (if refreshExpire > 0 then
               generate g ent2 [("user_id", req.userID), ("type", "refresh")]
             else .ok "") with
      | .error e => (.error (.wrap ErrMsgGenerateRefreshToken e), st1)
      | .ok refreshToken =>
        let sess : Session :=
          { id := token, userID := req.userID, token := token, device := req.device,
            ip := req.ip, loginTime := now, lastAccess := now, extra := req.extra }
        match createSession cfg st1 now sess with
        | (.error e, st2) => (.error (.wrap ErrMsgCreateSession e), st2)
        | (.ok _, st2) =>
          let li : LoginInfo :=
            { userID := req.userID, token := token, device := req.device,
              ip := req.ip, loginTime := now, lastAccess := now, extra := req.extra }
          let st3 := storeSet st2 now (loginInfoKey token) (.login li) cfg.tokenExpire
          let st4 := storeSet st3 now (userSessionKey req.userID token) (.str token)
            cfg.tokenExpire
          let st5 :=
            if refreshToken = "" then st4
            else
              storeSet st4 now (refreshTokenKey refreshToken)
                (.refresh { refreshToken := refreshToken, userID := req.userID,
                            device := req.device, createdAt := now,
                            expiresAt := now + refreshExpire, extra := req.extra })
                cfg.refreshExpire
          (.ok { token := token, refreshToken := refreshToken,
                 expireTime := now + cfg.tokenExpire,
                 userInfo := { id := req.userID, username := req.userID,
                               roles := [], extra := req.extra } }, st5)

/-- Service.Logout: recover the owner to drop the index record, delete the
session pair, then delete the login-info record. -/
def serviceLogout (st : Store) (now : Nat) (token : String) :
    Except GoErr Unit × Store :=
  let r1 := getLoginInfo st now token
  let st2 :=
    match r1.1 with
    | .ok li => storeDelete r1.2 (userSessionKey li.userID token)
    | .error _ => r1.2
  match deleteSession st2 now token with
  | (.error e, st3) => (.error (.wrap ErrMsgDeleteSession e), st3)
  | (.ok _, st3) => (.ok (), storeDelete st3 (loginInfoKey token))

/-- Service.RefreshAccessToken: validate, rotate both tokens, delete the old
refresh record, recreate Session + LoginInfo + RefreshTokenInfo. -/
def refreshAccessToken (cfg : Config) (g : Generator) (ent1 ent2 : String)
    (st : Store) (now : Nat) (refreshToken : String) :
    Except GoErr LoginResponse × Store :=
  if refreshToken = "" then (.error (.msg ErrMsgRefreshTokenEmpty), st)
  else
    match getRefreshTokenInfo st now refreshToken with
    | (.error e, st2) => (.error (.wrap ErrMsgGetRefreshTokenInfo e), st2)
    | (.ok ri, st1) =>
      if now > ri.expiresAt then
        (.error (.msg ErrMsgRefreshTokenExpired), storeDelete st1 (refreshTokenKey refreshToken))
      else
        match generate g ent1 [("user_id", ri.userID), ("refresh", "true")] with
        | .error e => (.error (.wrap ErrMsgGenerateNewAccessToken e), st1)
        | .ok newTok =>
          match generate g ent2 [("user_id", ri.userID), ("type", "refresh")] with
          | .error e => (.error (.wrap ErrMsgGenerateNewRefreshToken e), st1)
          | .ok newRt =>
            let st2 := storeDelete st1 (refreshTokenKey refreshToken)
            let sess : Session :=
              { id := newTok, userID := ri.userID, token := newTok, device := "",
                ip := "", loginTime := now, lastAccess := now, extra := [] }
            match createSession cfg st2 now sess with
            | (.error e, st3) => (.error (.wrap ErrMsgCreateNewSession e), st3)
            | (.ok _, st3) =>
              let li : LoginInfo :=
                { userID := ri.userID, token := newTok, device := "", ip := "",
                  loginTime := now, lastAccess := now, extra := [] }
              let st4 := storeSet st3 now (loginInfoKey newTok) (.login li) cfg.tokenExpire
              let nri : RefreshTokenInfo :=
                { refreshToken := newRt, userID := ri.userID, device := ri.device,
                  createdAt := now, expiresAt := now + cfg.refreshExpire,
                  extra := ri.extra }
              let st5 := storeSet st4 now (refreshTokenKey newRt) (.refresh nri)
                cfg.refreshExpire
              (.ok { token := newTok, refreshToken := newRt,
                     expireTime := now + cfg.tokenExpire,
                     userInfo := { id := ri.userID, username := ri.userID,
                                   roles := [], extra := [] } }, st5)

/-- Engine.Login: request validation, then Service.Login. -/
def engineLogin (cfg : Config) (g : Generator) (ent1 ent2 : String)
    (st : Store) (now : Nat) (req : LoginRequest) :
    Except GoErr LoginResponse × Store :=
  if req.userID = "" then (.error (.msg ErrMsgUserIDEmpty), st)
  else serviceLogin cfg g ent1 ent2 st now req

/-- Engine.Verify: load LoginInfo, expiry check against LastAccess plus the
token TTL, then load the Session, stamp LastAccess to now and write it back
(an UpdateSession failure is swallowed), returning the principal. -/
def engineVerify (cfg : Config) (st : Store) (now : Nat) (token : String) :
    Except GoErr UserInfo × Store :=
  if token = "" then (.error (.msg ErrMsgTokenEmpty), st)
  else
    match getLoginInfo st now token with
    | (.error e, st2) => (.error (.wrap ErrMsgGetLoginInfo e), st2)
    | (.ok li, st1) =>
      if now > li.lastAccess + cfg.tokenExpire then
        (.error (.msg ErrMsgTokenExpired), st1)
      else
        match getSession st1 now token with
        | (.error e, st2) => (.error (.wrap ErrMsgGetSessionInfo e), st2)
        | (.ok s, st2) =>
          let st3 := (updateSession cfg st2 now { s with lastAccess := now }).2
          (.ok { id := li.userID, username := li.userID, roles := [], extra := [] }, st3)

/-! ## Permission service (auth/permission.go) -/

structure PermissionSvc where
  provider : Option (String → Except GoErr (List Role))

/-- PermissionService.CheckPermission. -/
def checkPermission (p : PermissionSvc) (userID permission : String) :
    Except GoErr Bool :=
  if userID = "" then .error (.msg ErrMsgUserIDEmpty)
  else if permission = "" then .error (.msg ErrMsgPermissionEmpty)
  else
    match p.provider with
    | none => .error (.msg ErrMsgUserRoleProviderEmpty)
    | some f =>
      match f userID with
      | .error e => .error (.wrap ErrMsgGetUserRoles e)
      | .ok roles =>
        .ok (roles.any (fun role =>
          role.permissions.any (fun q => q == permission || q == PermissionWildcard)))

/-- PermissionService.CheckRole. -/
def checkRole (p : PermissionSvc) (userID roleID : String) :
    Except GoErr Bool :=
  if userID = "" then .error (.msg ErrMsgUserIDEmpty)
  else if roleID = "" then .error (.msg ErrMsgRoleIDEmpty)
  else
    match p.provider with
    | none => .error (.msg ErrMsgUserRoleProviderEmpty)
    | some f =>
      match f userID with
      | .error e => .error (.wrap ErrMsgGetUserRoles e)
      | .ok roles => .ok (roles.any (fun role => role.id == roleID))

/-! ## Store lemmas -/

theorem findEntry_nil (k : String) : findEntry [] k = none := rfl

theorem findEntry_eraseKey_self (st : Store) (k : String) :
    findEntry (eraseKey st k) k = none := by
  induction st with
  | nil => rfl
  | cons e st ih =>
    by_cases h : e.key = k
    · simpa [eraseKey, h] using ih
    · simpa [eraseKey, findEntry, List.find?, h] using ih

theorem findEntry_eraseKey_ne (st : Store) (k k2 : String) (h : k2 ≠ k) :
    findEntry (eraseKey st k) k2 = findEntry st k2 := by
  unfold findEntry eraseKey
  rw [List.find?_filter]
  congr 1
  funext e
  by_cases he2 : e.key = k2
  · simp [he2, h, Ne.symm h]
  · simp [he2]

theorem findEntry_set_self (st : Store) (now : Nat) (k : String) (v : StoredVal) (ttl : Nat) :
    findEntry (storeSet st now k v ttl) k = some ⟨k, v, expOf now ttl⟩ := by
  simp [storeSet, findEntry, List.find?]

theorem findEntry_set_ne (st : Store) (now : Nat) (k : String) (v : StoredVal) (ttl : Nat)
    (k2 : String) (h : k2 ≠ k) :
    findEntry (storeSet st now k v ttl) k2 = findEntry st k2 := by
  have hne : ¬ (k == k2) = true := by simp [Ne.symm h]
  simp only [storeSet, findEntry, List.find?, hne]
  exact findEntry_eraseKey_ne st k k2 h

theorem findEntry_delete_self (st : Store) (k : String) :
    findEntry (storeDelete st k) k = none := findEntry_eraseKey_self st k

theorem findEntry_delete_ne (st : Store) (k k2 : String) (h : k2 ≠ k) :
    findEntry (storeDelete st k) k2 = findEntry st k2 := findEntry_eraseKey_ne st k k2 h

/-- A successful Get leaves the store unchanged. -/
theorem storeGet_ok_state (st : Store) (now : Nat) (k : String) (v : StoredVal)
    (h : (storeGet st now k).1 = .ok v) : (storeGet st now k).2 = st := by
  unfold storeGet at *
  cases hf : findEntry st k with
  | none => simp [hf] at h
  | some e =>
    cases he : e.expireTime with
    | none => simp [hf, he]
    | some exp =>
      by_cases hexp : now > exp
      · simp [hf, he, hexp] at h
      · simp [hf, he, hexp]

/-- Get of a key just written at the same instant succeeds with that value
and leaves the store unchanged. -/
theorem storeGet_set_self (st : Store) (now : Nat) (k : String) (v : StoredVal) (ttl : Nat) :
    storeGet (storeSet st now k v ttl) now k = (.ok v, storeSet st now k v ttl) := by
  have hf := findEntry_set_self st now k v ttl
  unfold storeGet
  rw [hf]
  unfold expOf
  by_cases h : ttl > 0
  · simp [h, Nat.not_lt.2 (Nat.le_add_right now ttl)]
  · simp [h]

/-- Get through a write at a different key. -/
theorem storeGet_set_ne (st : Store) (now now2 : Nat) (k : String) (v : StoredVal) (ttl : Nat)
    (k2 : String) (h : k2 ≠ k) :
    (storeGet (storeSet st now k v ttl) now2 k2).1 = (storeGet st now2 k2).1 := by
  unfold storeGet
  rw [findEntry_set_ne st now k v ttl k2 h]
  cases hf : findEntry st k2 with
  | none => rfl
  | some e =>
    obtain ⟨ek, ev, eexp⟩ := e
    cases eexp with
    | none => rfl
    | some exp => by_cases hx : now2 > exp <;> simp [hx]

/-! ## Key-namespace disjointness

Every key category starts with `"gstoken:"` followed by a distinct first
category character (index 8: `'l'`, `'r'`, `'s'`, `'u'`), so keys of
different categories never collide, whatever the token and user parts. -/

theorem loginInfoKey_data8 (t : String) : (loginInfoKey t).data[8]? = some ('l') := by
  unfold loginInfoKey
  rw [String.data_append,
    List.getElem?_append_left (show (8 : Nat) < "gstoken:login:".data.length by decide)]
  rfl

theorem refreshTokenKey_data8 (t : String) : (refreshTokenKey t).data[8]? = some ('r') := by
  unfold refreshTokenKey
  rw [String.data_append,
    List.getElem?_append_left (show (8 : Nat) < "gstoken:refresh:".data.length by decide)]
  rfl

theorem sessionKey_data8 (t : String) : (sessionKey t).data[8]? = some ('s') := by
  unfold sessionKey
  rw [String.data_append,
    List.getElem?_append_left (show (8 : Nat) < "gstoken:session:".data.length by decide)]
  rfl

theorem userSessionKey_data8 (u t : String) : (userSessionKey u t).data[8]? = some ('u') := by
  unfold userSessionKey
  rw [String.data_append, String.data_append, String.data_append, List.append_assoc,
    List.append_assoc,
    List.getElem?_append_left (show (8 : Nat) < "gstoken:user_session:".data.length by decide)]
  rfl

theorem string_ne_of_data8 (s t : String) (c d : Char) (hs : s.data[8]? = some c)
    (ht : t.data[8]? = some d) (hcd : c ≠ d) : s ≠ t := by
  intro he
  subst he
  rw [hs] at ht
  exact hcd (Option.some.inj ht)

theorem sessionKey_ne_loginInfoKey (a b : String) : sessionKey a ≠ loginInfoKey b :=
  string_ne_of_data8 _ _ ('s') ('l') (sessionKey_data8 a) (loginInfoKey_data8 b) (by decide)

theorem sessionKey_ne_refreshTokenKey (a b : String) : sessionKey a ≠ refreshTokenKey b :=
  string_ne_of_data8 _ _ ('s') ('r') (sessionKey_data8 a) (refreshTokenKey_data8 b) (by decide)

theorem sessionKey_ne_userSessionKey (a b c : String) : sessionKey a ≠ userSessionKey b c :=
  string_ne_of_data8 _ _ ('s') ('u') (sessionKey_data8 a) (userSessionKey_data8 b c) (by decide)

theorem loginInfoKey_ne_refreshTokenKey (a b : String) : loginInfoKey a ≠ refreshTokenKey b :=
  string_ne_of_data8 _ _ ('l') ('r') (loginInfoKey_data8 a) (refreshTokenKey_data8 b) (by decide)

theorem loginInfoKey_ne_userSessionKey (a b c : String) : loginInfoKey a ≠ userSessionKey b c :=
  string_ne_of_data8 _ _ ('l') ('u') (loginInfoKey_data8 a) (userSessionKey_data8 b c) (by decide)

theorem refreshTokenKey_ne_userSessionKey (a b c : String) :
    refreshTokenKey a ≠ userSessionKey b c :=
  string_ne_of_data8 _ _ ('r') ('u') (refreshTokenKey_data8 a) (userSessionKey_data8 b c)
    (by decide)

theorem refreshTokenKey_ne_of_ne (a b : String) (h : a ≠ b) :
    refreshTokenKey a ≠ refreshTokenKey b := by
  intro he
  apply h
  have hd : "gstoken:refresh:".data ++ a.data = "gstoken:refresh:".data ++ b.data := by
    have h2 := congrArg String.data he
    simpa [refreshTokenKey, String.data_append] using h2
  exact String.ext (List.append_cancel_left hd)

/-! ## Helper lemmas on the engine operations -/

/-- Get of an entry freshly written at this instant returns its value and
leaves the store unchanged. -/
theorem storeGet_fresh (st : Store) (now : Nat) (k : String) (v : StoredVal) (ttl : Nat)
    (h : findEntry st k = some ⟨k, v, expOf now ttl⟩) :
    storeGet st now k = (.ok v, st) := by
  unfold storeGet
  rw [h]
  unfold expOf
  by_cases hp : ttl > 0
  · simp [hp, Nat.not_lt.2 (Nat.le_add_right now ttl)]
  · simp [hp]

/-- DeleteSession never fails on a non-empty token (absent sessions are
success, and the memory backend's deletes are total). -/
theorem deleteSession_ok (st : Store) (now : Nat) (token : String) (h : token ≠ "") :
    (deleteSession st now token).1 = .ok () := by
  unfold deleteSession
  simp only [h, if_false]
  split
  · rfl
  · rfl

/-- Verify on a store holding no login-info record for the token fails with
the wrapped key-not-found error and leaves the store unchanged. -/
theorem engineVerify_notFound (cfg : Config) (st : Store) (now : Nat) (token : String)
    (h : token ≠ "") (hf : findEntry st (loginInfoKey token) = none) :
    engineVerify cfg st now token =
      (.error (.wrap ErrMsgGetLoginInfo (.wrap ErrMsgGetLoginInfo
        (.msg ("key not found: " ++ loginInfoKey token)))), st) := by
  unfold engineVerify getLoginInfo storeGet
  rw [hf]
  simp [h]

deriving instance DecidableEq for Except

/-! ## Claim C9 -/

/-- Claim C9: with the custom token format selected and no registered custom
function, Generate returns an error (no token, no fallback to another
format); with a custom function registered, Generate returns exactly the
result of applying that function to the attribute map. -/
theorem generate_custom_spec :
    (∀ (ent : String) (extra : Extra),
      generate { style := .styleCustom, customFunc := none } ent extra =
        .error (.msg ErrMsgCustomFuncNotRegistered)) ∧
    (∀ (f : Extra → Except GoErr String) (ent : String) (extra : Extra),
      generate { style := .styleCustom, customFunc := some f } ent extra = f extra) :=
  ⟨fun _ _ => rfl, fun _ _ _ => rfl⟩

/-! ## Claim C10 -/

/-- Claim C10: the user-session index key derived for the distinct user
`"u:x"` matches the user-session scan pattern of user `"u"` under the
in-process backend's prefix matcher, and consequently KickOut of `"u"`
deletes a session belonging to `"u:x"`. -/
theorem userSessionPattern_collision :
    ("u:x" : String) ≠ "u" ∧
    matchPattern (userSessionKey "u:x" "t") (userSessionPattern "u") = true ∧
    findEntry (createSession
      { tokenExpire := 100, refreshExpire := 0, tokenStyle := .styleUUID,
        loginMode := .singleLogin, autoRenew := true, rememberDays := 0 } [] 0
      { id := "t", userID := "u:x", token := "t", device := "web", ip := "",
        loginTime := 0, lastAccess := 0, extra := [] }).2 (sessionKey "t") ≠ none ∧
    findEntry (kickOut (createSession
      { tokenExpire := 100, refreshExpire := 0, tokenStyle := .styleUUID,
        loginMode := .singleLogin, autoRenew := true, rememberDays := 0 } [] 0
      { id := "t", userID := "u:x", token := "t", device := "web", ip := "",
        loginTime := 0, lastAccess := 0, extra := [] }).2 5 "u").2 (sessionKey "t") = none := by
  refine ⟨by decide, by decide, by decide, by decide⟩

/-! ## Claim C3 -/

/-- Claim C3 (code bug): with auto-renew enabled and TTL = 2s, login at 0,
a Verify at 1.5s succeeds, yet a Verify at 2.7s — only 1.2s after the
previous call, i.e. within the TTL window — fails: Verify never refreshes
the LoginInfo record (neither its LastAccess nor its storage TTL), so the
renewed-activity guarantee claimed for auto-renew does not hold. -/
theorem autoRenew_verify_expiry_bug :
    (engineLogin
      { tokenExpire := 2 * second, refreshExpire := 0, tokenStyle := .styleUUID,
        loginMode := .multiLogin, autoRenew := true, rememberDays := 0 }
      { style := .styleUUID, customFunc := none } "t1" "" [] 0
      { userID := "u", device := "web", ip := "", extra := [] }).1 =
      .ok { token := "t1", refreshToken := "", expireTime := 2 * second,
            userInfo := { id := "u", username := "u", roles := [], extra := [] } } ∧
    (engineVerify
      { tokenExpire := 2 * second, refreshExpire := 0, tokenStyle := .styleUUID,
        loginMode := .multiLogin, autoRenew := true, rememberDays := 0 }
      (engineLogin
        { tokenExpire := 2 * second, refreshExpire := 0, tokenStyle := .styleUUID,
          loginMode := .multiLogin, autoRenew := true, rememberDays := 0 }
        { style := .styleUUID, customFunc := none } "t1" "" [] 0
        { userID := "u", device := "web", ip := "", extra := [] }).2
      (1500 * 1000000) "t1").1 =
      .ok { id := "u", username := "u", roles := [], extra := [] } ∧
    (engineVerify
      { tokenExpire := 2 * second, refreshExpire := 0, tokenStyle := .styleUUID,
        loginMode := .multiLogin, autoRenew := true, rememberDays := 0 }
      (engineVerify
        { tokenExpire := 2 * second, refreshExpire := 0, tokenStyle := .styleUUID,
          loginMode := .multiLogin, autoRenew := true, rememberDays := 0 }
        (engineLogin
          { tokenExpire := 2 * second, refreshExpire := 0, tokenStyle := .styleUUID,
            loginMode := .multiLogin, autoRenew := true, rememberDays := 0 }
          { style := .styleUUID, customFunc := none } "t1" "" [] 0
          { userID := "u", device := "web", ip := "", extra := [] }).2
        (1500 * 1000000) "t1").2
      (2700 * 1000000) "t1").1 =
      .error (.wrap ErrMsgGetLoginInfo (.wrap ErrMsgGetLoginInfo
        (.msg ("key expired: " ++ loginInfoKey "t1")))) := by
  refine ⟨by decide, by decide, by decide⟩

/-! ## Claim C6 -/

/-- Claim C6 (code bug): with the auto-renew flag disabled in the
configuration, an unexpired Verify still performs the renewal write —
the stored Session's LastAccess is stamped to the Verify instant — because
Engine.Verify never consults config.AutoRenew. -/
theorem verify_renew_ignores_autoRenew_bug :
    (engineVerify
      { tokenExpire := 100, refreshExpire := 0, tokenStyle := .styleUUID,
        loginMode := .multiLogin, autoRenew := false, rememberDays := 0 }
      (engineLogin
        { tokenExpire := 100, refreshExpire := 0, tokenStyle := .styleUUID,
          loginMode := .multiLogin, autoRenew := false, rememberDays := 0 }
        { style := .styleUUID, customFunc := none } "t1" "" [] 0
        { userID := "u", device := "web", ip := "", extra := [] }).2 10 "t1").1 =
      .ok { id := "u", username := "u", roles := [], extra := [] } ∧
    (findEntry (engineVerify
      { tokenExpire := 100, refreshExpire := 0, tokenStyle := .styleUUID,
        loginMode := .multiLogin, autoRenew := false, rememberDays := 0 }
      (engineLogin
        { tokenExpire := 100, refreshExpire := 0, tokenStyle := .styleUUID,
          loginMode := .multiLogin, autoRenew := false, rememberDays := 0 }
        { style := .styleUUID, customFunc := none } "t1" "" [] 0
        { userID := "u", device := "web", ip := "", extra := [] }).2 10 "t1").2
      (sessionKey "t1")).map (fun e => e.val) =
      some (.sess { id := "t1", userID := "u", token := "t1", device := "web", ip := "",
                    loginTime := 0, lastAccess := 10, extra := [] }) := by
  refine ⟨by decide, by decide⟩

/-! ## Claim C7 -/

/-- Claim C7 (code bug): with refresh TTL unset and remember-days = 1,
Login issues a non-empty refresh token whose record carries the absolute
expiry login-time + 24h, but the record is written with the storage TTL
`config.RefreshExpire`, i.e. zero — no storage expiry — instead of the
computed refresh lifetime. -/
theorem rememberDays_storage_ttl_bug :
    (engineLogin
      { tokenExpire := 100, refreshExpire := 0, tokenStyle := .styleUUID,
        loginMode := .multiLogin, autoRenew := true, rememberDays := 1 }
      { style := .styleUUID, customFunc := none } "t1" "r1" [] 0
      { userID := "u", device := "web", ip := "", extra := [] }).1 =
      .ok { token := "t1", refreshToken := "r1", expireTime := 100,
            userInfo := { id := "u", username := "u", roles := [], extra := [] } } ∧
    findEntry (engineLogin
      { tokenExpire := 100, refreshExpire := 0, tokenStyle := .styleUUID,
        loginMode := .multiLogin, autoRenew := true, rememberDays := 1 }
      { style := .styleUUID, customFunc := none } "t1" "r1" [] 0
      { userID := "u", device := "web", ip := "", extra := [] }).2
      (refreshTokenKey "r1") =
      some { key := refreshTokenKey "r1",
             val := .refresh { refreshToken := "r1", userID := "u", device := "web",
                               createdAt := 0, expiresAt := 24 * hour, extra := [] },
             expireTime := none } := by
  refine ⟨by decide, by decide⟩

/-! ## KickOut never touches login-info records

Every key the user-session scan can return starts with
`"gstoken:user_session:"`, and DeleteSession only deletes session and
user-session keys, so a KickOut pass — whatever the store holds — leaves
every login-info record exactly as it was. -/

theorem matched_userSession_data8 (k u : String)
    (h : matchPattern k (userSessionPattern u) = true) : k.data[8]? = some ('u') := by
  have hne : ¬ (userSessionPattern u = "*") := by
    intro he
    have h0 : (userSessionPattern u).data[0]? = some ('g') := by
      unfold userSessionPattern
      rw [String.data_append, String.data_append, List.append_assoc,
        List.getElem?_append_left
          (show (0 : Nat) < "gstoken:user_session:".data.length by decide)]
      rfl
    rw [he] at h0
    exact absurd h0 (by decide)
  have hc : (userSessionPattern u).data.contains ('*') = true := by
    apply List.elem_iff.mpr
    unfold userSessionPattern
    rw [String.data_append]
    exact List.mem_append_right _ (by decide)
  unfold matchPattern at h
  rw [if_neg hne, if_pos hc] at h
  have hshape : (userSessionPattern u).data.takeWhile (fun c => c ≠ ('*')) =
      "gstoken:user_session:".data ++
        (u.data ++ (":*" : String).data).takeWhile (fun c => c ≠ ('*')) := by
    unfold userSessionPattern
    rw [String.data_append, String.data_append, List.append_assoc]
    exact List.takeWhile_append_of_pos (by decide)
  rw [List.isPrefixOf_iff_prefix, hshape] at h
  obtain ⟨tail, htail⟩ := h
  rw [← htail, List.append_assoc,
    List.getElem?_append_left (show (8 : Nat) < "gstoken:user_session:".data.length by decide)]
  rfl

theorem matched_ne_loginInfoKey (k u t : String)
    (h : matchPattern k (userSessionPattern u) = true) : loginInfoKey t ≠ k :=
  Ne.symm (string_ne_of_data8 k (loginInfoKey t) ('u') ('l')
    (matched_userSession_data8 k u h) (loginInfoKey_data8 t) (by decide))

theorem storeGet_snd_cases (st : Store) (now : Nat) (k : String) :
    (storeGet st now k).2 = st ∨ (storeGet st now k).2 = storeDelete st k := by
  unfold storeGet
  cases findEntry st k with
  | none => exact Or.inl rfl
  | some e =>
    obtain ⟨ek, ev, eexp⟩ := e
    cases eexp with
    | none => exact Or.inl rfl
    | some x =>
      by_cases hx : now > x
      · exact Or.inr (by simp [hx])
      · exact Or.inl (by simp [hx])

theorem getSession_snd_cases (st : Store) (now : Nat) (tok : String) :
    (getSession st now tok).2 = st ∨
      (getSession st now tok).2 = storeDelete st (sessionKey tok) := by
  unfold getSession
  by_cases h : tok = ""
  · rw [if_pos h]
    exact Or.inl rfl
  · rw [if_neg h]
    rcases hg : storeGet st now (sessionKey tok) with ⟨r, st2⟩
    have hc := storeGet_snd_cases st now (sessionKey tok)
    rw [hg] at hc
    dsimp only at hc
    cases r with
    | error e => exact hc
    | ok v => cases v <;> exact hc

theorem deleteSession_preserves_loginInfo (st : Store) (now : Nat) (tok t : String) :
    findEntry (deleteSession st now tok).2 (loginInfoKey t) =
      findEntry st (loginInfoKey t) := by
  unfold deleteSession
  by_cases h : tok = ""
  · rw [if_pos h]
  · rw [if_neg h]
    rcases hg : getSession st now tok with ⟨r, st2⟩
    have hc := getSession_snd_cases st now tok
    rw [hg] at hc
    dsimp only at hc
    have hpres : findEntry st2 (loginInfoKey t) = findEntry st (loginInfoKey t) := by
      rcases hc with hc | hc
      · rw [hc]
      · rw [hc]
        exact findEntry_delete_ne st (sessionKey tok) (loginInfoKey t)
          (Ne.symm (sessionKey_ne_loginInfoKey tok t))
    cases r with
    | error e => exact hpres
    | ok s =>
      dsimp only
      rw [findEntry_delete_ne _ _ _ (loginInfoKey_ne_userSessionKey t s.userID tok)]
      rw [findEntry_delete_ne _ _ _ (Ne.symm (sessionKey_ne_loginInfoKey tok t))]
      exact hpres

theorem kickOut_fold_preserves_loginInfo (now : Nat) (u t : String) :
    ∀ (keys : List String),
      (∀ k ∈ keys, matchPattern k (userSessionPattern u) = true) →
      ∀ (acc : Store),
        findEntry (keys.foldl (fun acc k =>
          match storeGet acc now k with
          | (.error _, acc1) => acc1
          | (.ok v, acc1) => (deleteSession acc1 now (scannedToken v)).2) acc)
          (loginInfoKey t) = findEntry acc (loginInfoKey t) := by
  intro keys
  induction keys with
  | nil =>
    intro _ acc
    rfl
  | cons k ks ih =>
    intro hall acc
    rw [List.foldl_cons]
    have hk := hall k (by simp)
    have hne : loginInfoKey t ≠ k := matched_ne_loginInfoKey k u t hk
    rcases hg : storeGet acc now k with ⟨r, acc1⟩
    have hcs := storeGet_snd_cases acc now k
    rw [hg] at hcs
    dsimp only at hcs
    have hacc1 : findEntry acc1 (loginInfoKey t) = findEntry acc (loginInfoKey t) := by
      rcases hcs with hc | hc
      · rw [hc]
      · rw [hc]
        exact findEntry_delete_ne acc k (loginInfoKey t) hne
    have hrest := ih (fun k2 hk2 => hall k2 (by simp [hk2]))
    cases r with
    | error e =>
      dsimp only
      rw [hrest acc1, hacc1]
    | ok v =>
      dsimp only
      rw [hrest _, deleteSession_preserves_loginInfo, hacc1]

theorem kickOut_preserves_loginInfo (st : Store) (now : Nat) (u t : String) :
    findEntry (kickOut st now u).2 (loginInfoKey t) = findEntry st (loginInfoKey t) := by
  unfold kickOut
  by_cases hu : u = ""
  · rw [if_pos hu]
  · rw [if_neg hu]
    dsimp only
    have hkeys : ∀ k ∈ storeKeys st (userSessionPattern u),
        matchPattern k (userSessionPattern u) = true := by
      intro k hk
      simp only [storeKeys, List.mem_map, List.mem_filter] at hk
      obtain ⟨e, ⟨_, he⟩, hke⟩ := hk
      rw [← hke]
      exact he
    exact kickOut_fold_preserves_loginInfo now u t
      (storeKeys st (userSessionPattern u)) hkeys st

/-! ## Claim C2 -/

/-- Claim C2 counterexample: in single-login mode, after user "u" (holding
the active token "t1") logs in again, the second login succeeds and evicts
"t1", yet the LoginInfo record of "t1" is still present in storage — the
eviction (KickOut → DeleteSession) deletes only the Session record and the
user-to-token index record, never the LoginInfo record. -/
theorem singleLogin_kickout_loginInfo_cex :
    (engineLogin
      { tokenExpire := 100, refreshExpire := 0, tokenStyle := .styleUUID,
        loginMode := .singleLogin, autoRenew := true, rememberDays := 0 }
      { style := .styleUUID, customFunc := none } "t2" ""
      (engineLogin
        { tokenExpire := 100, refreshExpire := 0, tokenStyle := .styleUUID,
          loginMode := .singleLogin, autoRenew := true, rememberDays := 0 }
        { style := .styleUUID, customFunc := none } "t1" "" [] 0
        { userID := "u", device := "web", ip := "", extra := [] }).2 1
      { userID := "u", device := "web", ip := "", extra := [] }).1 =
      .ok { token := "t2", refreshToken := "", expireTime := 101,
            userInfo := { id := "u", username := "u", roles := [], extra := [] } } ∧
    (findEntry (engineLogin
      { tokenExpire := 100, refreshExpire := 0, tokenStyle := .styleUUID,
        loginMode := .singleLogin, autoRenew := true, rememberDays := 0 }
      { style := .styleUUID, customFunc := none } "t2" ""
      (engineLogin
        { tokenExpire := 100, refreshExpire := 0, tokenStyle := .styleUUID,
          loginMode := .singleLogin, autoRenew := true, rememberDays := 0 }
        { style := .styleUUID, customFunc := none } "t1" "" [] 0
        { userID := "u", device := "web", ip := "", extra := [] }).2 1
      { userID := "u", device := "web", ip := "", extra := [] }).2
      (loginInfoKey "t1")).isSome = true := by
  refine ⟨by decide, by decide⟩

/-- Claim C2 amended: in single-login mode a subsequent Login for a user
holding active tokens deletes each prior token's Session record and its
user-to-token index record but not its LoginInfo record — the KickOut pass
leaves every login-info record of every store untouched (first conjunct,
fully general); the prior token is nevertheless invalidated, because Verify
fails when the Session record is gone (the session lookup, fatal in
Engine.Verify, reports key-not-found), as the concrete two-login scenario
shows. -/
theorem singleLogin_eviction_amended :
    (∀ (st : Store) (now : Nat) (u t : String),
      findEntry (kickOut st now u).2 (loginInfoKey t) =
        findEntry st (loginInfoKey t)) ∧
    findEntry (engineLogin
      { tokenExpire := 100, refreshExpire := 0, tokenStyle := .styleUUID,
        loginMode := .singleLogin, autoRenew := true, rememberDays := 0 }
      { style := .styleUUID, customFunc := none } "t2" ""
      (engineLogin
        { tokenExpire := 100, refreshExpire := 0, tokenStyle := .styleUUID,
          loginMode := .singleLogin, autoRenew := true, rememberDays := 0 }
        { style := .styleUUID, customFunc := none } "t1" "" [] 0
        { userID := "u", device := "web", ip := "", extra := [] }).2 1
      { userID := "u", device := "web", ip := "", extra := [] }).2
      (sessionKey "t1") = none ∧
    findEntry (engineLogin
      { tokenExpire := 100, refreshExpire := 0, tokenStyle := .styleUUID,
        loginMode := .singleLogin, autoRenew := true, rememberDays := 0 }
      { style := .styleUUID, customFunc := none } "t2" ""
      (engineLogin
        { tokenExpire := 100, refreshExpire := 0, tokenStyle := .styleUUID,
          loginMode := .singleLogin, autoRenew := true, rememberDays := 0 }
        { style := .styleUUID, customFunc := none } "t1" "" [] 0
        { userID := "u", device := "web", ip := "", extra := [] }).2 1
      { userID := "u", device := "web", ip := "", extra := [] }).2
      (userSessionKey "u" "t1") = none ∧
    (findEntry (engineLogin
      { tokenExpire := 100, refreshExpire := 0, tokenStyle := .styleUUID,
        loginMode := .singleLogin, autoRenew := true, rememberDays := 0 }
      { style := .styleUUID, customFunc := none } "t2" ""
      (engineLogin
        { tokenExpire := 100, refreshExpire := 0, tokenStyle := .styleUUID,
          loginMode := .singleLogin, autoRenew := true, rememberDays := 0 }
        { style := .styleUUID, customFunc := none } "t1" "" [] 0
        { userID := "u", device := "web", ip := "", extra := [] }).2 1
      { userID := "u", device := "web", ip := "", extra := [] }).2
      (loginInfoKey "t1")).isSome = true ∧
    (engineVerify
      { tokenExpire := 100, refreshExpire := 0, tokenStyle := .styleUUID,
        loginMode := .singleLogin, autoRenew := true, rememberDays := 0 }
      (engineLogin
        { tokenExpire := 100, refreshExpire := 0, tokenStyle := .styleUUID,
          loginMode := .singleLogin, autoRenew := true, rememberDays := 0 }
        { style := .styleUUID, customFunc := none } "t2" ""
        (engineLogin
          { tokenExpire := 100, refreshExpire := 0, tokenStyle := .styleUUID,
            loginMode := .singleLogin, autoRenew := true, rememberDays := 0 }
          { style := .styleUUID, customFunc := none } "t1" "" [] 0
          { userID := "u", device := "web", ip := "", extra := [] }).2 1
        { userID := "u", device := "web", ip := "", extra := [] }).2 1 "t1").1 =
      .error (.wrap ErrMsgGetSessionInfo (.wrap ErrMsgGetSessionData
        (.msg ("key not found: " ++ sessionKey "t1")))) := by
  refine ⟨kickOut_preserves_loginInfo, by decide, by decide, by decide, by decide⟩

/-! ## Claim C5 -/

/-- Claim C5 counterexample: at the token `""` — a token that was never
issued — Service.Logout does not return success: DeleteSession rejects the
empty token and Logout surfaces that error. -/
theorem logout_empty_token_cex :
    (serviceLogout [] 0 "").1 =
      .error (.wrap ErrMsgDeleteSession (.msg ErrMsgTokenEmpty)) := by
  decide

/-- Claim C5 amended: for every non-empty token — issued or not, already
logged out or not, over any store contents — Logout succeeds (deleting
absent records is success), and any later Verify of that token fails with
the wrapped login-info key-not-found error. -/
theorem logout_then_verify_fails (cfg : Config) (st : Store) (now now2 : Nat)
    (token : String) (h : token ≠ "") :
    (serviceLogout st now token).1 = .ok () ∧
    (engineVerify cfg (serviceLogout st now token).2 now2 token).1 =
      .error (.wrap ErrMsgGetLoginInfo (.wrap ErrMsgGetLoginInfo
        (.msg ("key not found: " ++ loginInfoKey token)))) := by
  have hshape : (serviceLogout st now token).1 = .ok () ∧
      ∃ st3, (serviceLogout st now token).2 = storeDelete st3 (loginInfoKey token) := by
    unfold serviceLogout
    rcases hLI : getLoginInfo st now token with ⟨rr, stA⟩
    dsimp only
    rcases rr with e | li
    · rcases hDS : deleteSession stA now token with ⟨rd, st3⟩
      have hok := deleteSession_ok stA now token h
      rw [hDS] at hok
      dsimp only at hok
      rw [hok]
      exact ⟨rfl, st3, rfl⟩
    · rcases hDS : deleteSession (storeDelete stA (userSessionKey li.userID token))
        now token with ⟨rd, st3⟩
      have hok := deleteSession_ok (storeDelete stA (userSessionKey li.userID token))
        now token h
      rw [hDS] at hok
      dsimp only at hok
      rw [hok]
      exact ⟨rfl, st3, rfl⟩
  obtain ⟨h1, st3, h2⟩ := hshape
  refine ⟨h1, ?_⟩
  rw [h2]
  have hfe : findEntry (storeDelete st3 (loginInfoKey token)) (loginInfoKey token) = none :=
    findEntry_delete_self st3 (loginInfoKey token)
  rw [engineVerify_notFound cfg _ now2 token h hfe]

/-- Witness for the amended C5 theorem at the concrete token "t1" over the
empty store. -/
theorem logout_then_verify_fails_witness :
    ("t1" : String) ≠ "" ∧
    ((serviceLogout [] 0 "t1").1 = .ok () ∧
     (engineVerify
       { tokenExpire := 100, refreshExpire := 0, tokenStyle := .styleUUID,
         loginMode := .multiLogin, autoRenew := true, rememberDays := 0 }
       (serviceLogout [] 0 "t1").2 0 "t1").1 =
       .error (.wrap ErrMsgGetLoginInfo (.wrap ErrMsgGetLoginInfo
         (.msg ("key not found: " ++ loginInfoKey "t1"))))) :=
  ⟨by decide, logout_then_verify_fails
    { tokenExpire := 100, refreshExpire := 0, tokenStyle := .styleUUID,
      loginMode := .multiLogin, autoRenew := true, rememberDays := 0 }
    [] 0 0 "t1" (by decide)⟩

/-! ## Claim C8 -/

/-- Claim C8: with a registered role provider that answers the lookup,
checkPermission returns true exactly when some returned role's permission
list contains the requested permission or the wildcard marker; with no
provider registered the check fails with the provider-not-configured error
instead of returning a boolean. -/
theorem checkPermission_spec :
    (∀ (f : String → Except GoErr (List Role)) (roles : List Role) (userID p : String),
      userID ≠ "" → p ≠ "" → f userID = .ok roles →
      (checkPermission { provider := some f } userID p = .ok true ↔
        ∃ r ∈ roles, p ∈ r.permissions ∨ PermissionWildcard ∈ r.permissions)) ∧
    (∀ userID p : String, userID ≠ "" → p ≠ "" →
      checkPermission { provider := none } userID p =
        .error (.msg ErrMsgUserRoleProviderEmpty)) := by
  constructor
  · intro f roles userID p hu hp hf
    unfold checkPermission
    rw [if_neg hu, if_neg hp]
    dsimp only
    rw [hf]
    dsimp only
    constructor
    · intro hok
      have hb := Except.ok.inj hok
      rw [List.any_eq_true] at hb
      obtain ⟨r, hr, hpr⟩ := hb
      rw [List.any_eq_true] at hpr
      obtain ⟨q, hq, hqe⟩ := hpr
      rcases Bool.or_eq_true_iff.1 hqe with hql | hqr
      · exact ⟨r, hr, Or.inl (by rwa [eq_of_beq hql] at hq)⟩
      · exact ⟨r, hr, Or.inr (by rwa [eq_of_beq hqr] at hq)⟩
    · rintro ⟨r, hr, hq⟩
      have : (roles.any (fun role =>
          role.permissions.any (fun q => q == p || q == PermissionWildcard))) = true := by
        rw [List.any_eq_true]
        refine ⟨r, hr, ?_⟩
        rw [List.any_eq_true]
        rcases hq with hql | hqr
        · exact ⟨p, hql, by simp⟩
        · exact ⟨PermissionWildcard, hqr, by simp⟩
      rw [this]
  · intro userID p hu hp
    unfold checkPermission
    rw [if_neg hu, if_neg hp]

/-- Witness for C8: a provider granting the wildcard role to "u" satisfies
an arbitrary permission string, and the unconfigured service errors. -/
theorem checkPermission_spec_witness :
    ((fun _ : String => (.ok [{ id := "admin", name := "管理员", permissions := ["*"] }]
        : Except GoErr (List Role))) "u" =
      .ok [{ id := "admin", name := "管理员", permissions := ["*"] }] ∧
     ("u" : String) ≠ "" ∧ ("doc:read" : String) ≠ "" ∧
     (checkPermission
        { provider := some (fun _ => .ok [{ id := "admin", name := "管理员",
                                            permissions := ["*"] }]) } "u" "doc:read" =
        .ok true ↔
      ∃ r ∈ [({ id := "admin", name := "管理员", permissions := ["*"] } : Role)],
        "doc:read" ∈ r.permissions ∨ PermissionWildcard ∈ r.permissions)) ∧
    checkPermission { provider := none } "u" "doc:read" =
      .error (.msg ErrMsgUserRoleProviderEmpty) :=
  ⟨⟨rfl, by decide, by decide,
    checkPermission_spec.1 _ _ "u" "doc:read" (by decide) (by decide) rfl⟩,
   checkPermission_spec.2 "u" "doc:read" (by decide) (by decide)⟩

/-! ## Claim C1 -/

/-- Verify at the login instant on any store whose latest login-info and
session records for the token were freshly written at that instant with the
token TTL: it succeeds and reports the login-info's user id. -/
theorem engineVerify_fresh_records (cfg : Config) (ST : Store) (now : Nat)
    (token : String) (ht : token ≠ "") (uid dev ip : String) (ex : Extra) (s : Session)
    (hfe : findEntry ST (loginInfoKey token) = some ⟨loginInfoKey token,
      .login { userID := uid, token := token, device := dev, ip := ip,
               loginTime := now, lastAccess := now, extra := ex },
      expOf now cfg.tokenExpire⟩)
    (hfs : findEntry ST (sessionKey token) = some ⟨sessionKey token, .sess s,
      expOf now cfg.tokenExpire⟩) :
    (engineVerify cfg ST now token).1 =
      .ok { id := uid, username := uid, roles := [], extra := [] } := by
  unfold engineVerify
  rw [if_neg ht]
  unfold getLoginInfo
  rw [storeGet_fresh ST now (loginInfoKey token) _ cfg.tokenExpire hfe]
  dsimp only
  rw [if_neg (show ¬ now > now + cfg.tokenExpire by omega)]
  unfold getSession
  rw [if_neg ht, storeGet_fresh ST now (sessionKey token) _ cfg.tokenExpire hfs]

/-- Claim C1: every successful Login (the engine validates that the user id
is non-empty) is immediately verifiable — Verify on the returned token at
the login instant succeeds and yields a principal whose id is the user id
supplied in the login request. -/
theorem login_then_verify_same_user (cfg : Config) (g : Generator) (e1 e2 : String)
    (st : Store) (now : Nat) (req : LoginRequest) (resp : LoginResponse)
    (hok : (engineLogin cfg g e1 e2 st now req).1 = .ok resp) :
    ∃ ui, (engineVerify cfg (engineLogin cfg g e1 e2 st now req).2 now resp.token).1 =
      .ok ui ∧ ui.id = req.userID := by
  unfold engineLogin at hok ⊢
  by_cases hu : req.userID = ""
  · rw [if_pos hu] at hok
    exact Except.noConfusion hok
  rw [if_neg hu] at hok ⊢
  unfold serviceLogin at hok ⊢
  rcases hHM : handleLoginMode cfg st now req with ⟨r1, st1⟩
  rw [hHM] at hok
  cases r1 with
  | error e =>
    dsimp only at hok
    exact Except.noConfusion hok
  | ok u1 =>
    dsimp only at hok ⊢
    rcases hG1 : generate g e1 (loginTokenExtra req) with e | token
    · rw [hG1] at hok
      dsimp only at hok
      exact Except.noConfusion hok
    rw [hG1] at hok
    dsimp only at hok ⊢
    rcases hG2 : (if effRefreshExpire cfg > 0 then
        generate g e2 [("user_id", req.userID), ("type", "refresh")]
      else (Except.ok "" : Except GoErr String)) with e | rtok
    · rw [hG2] at hok
      dsimp only at hok
      exact Except.noConfusion hok
    rw [hG2] at hok
    dsimp only at hok ⊢
    by_cases ht : token = ""
    · rw [createSession] at hok
      dsimp only at hok
      rw [if_pos ht] at hok
      dsimp only at hok
      exact Except.noConfusion hok
    rw [createSession] at hok ⊢
    dsimp only at hok ⊢
    rw [if_neg ht, if_neg hu] at hok ⊢
    dsimp only at hok ⊢
    have hre := Except.ok.inj hok
    subst hre
    dsimp only
    by_cases hrt : rtok = ""
    · rw [if_pos hrt]
      refine ⟨_, engineVerify_fresh_records cfg _ now token ht req.userID req.device
        req.ip req.extra
        { id := token, userID := req.userID, token := token, device := req.device,
          ip := req.ip, loginTime := now, lastAccess := now, extra := req.extra }
        ?_ ?_, rfl⟩
      · rw [findEntry_set_ne _ _ _ _ _ _
          (loginInfoKey_ne_userSessionKey token req.userID token)]
        exact findEntry_set_self _ _ _ _ _
      · rw [findEntry_set_ne _ _ _ _ _ _
          (sessionKey_ne_userSessionKey token req.userID token)]
        rw [findEntry_set_ne _ _ _ _ _ _ (sessionKey_ne_loginInfoKey token token)]
        rw [findEntry_set_ne _ _ _ _ _ _
          (sessionKey_ne_userSessionKey token req.userID token)]
        exact findEntry_set_self _ _ _ _ _
    · rw [if_neg hrt]
      refine ⟨_, engineVerify_fresh_records cfg _ now token ht req.userID req.device
        req.ip req.extra
        { id := token, userID := req.userID, token := token, device := req.device,
          ip := req.ip, loginTime := now, lastAccess := now, extra := req.extra }
        ?_ ?_, rfl⟩
      · rw [findEntry_set_ne _ _ _ _ _ _ (loginInfoKey_ne_refreshTokenKey token rtok)]
        rw [findEntry_set_ne _ _ _ _ _ _
          (loginInfoKey_ne_userSessionKey token req.userID token)]
        exact findEntry_set_self _ _ _ _ _
      · rw [findEntry_set_ne _ _ _ _ _ _ (sessionKey_ne_refreshTokenKey token rtok)]
        rw [findEntry_set_ne _ _ _ _ _ _
          (sessionKey_ne_userSessionKey token req.userID token)]
        rw [findEntry_set_ne _ _ _ _ _ _ (sessionKey_ne_loginInfoKey token token)]
        rw [findEntry_set_ne _ _ _ _ _ _
          (sessionKey_ne_userSessionKey token req.userID token)]
        exact findEntry_set_self _ _ _ _ _

/-- Witness for C1 at a concrete login of user "u". -/
theorem login_then_verify_same_user_witness :
    (engineLogin
      { tokenExpire := 100, refreshExpire := 0, tokenStyle := .styleUUID,
        loginMode := .multiLogin, autoRenew := true, rememberDays := 0 }
      { style := .styleUUID, customFunc := none } "t1" "" [] 0
      { userID := "u", device := "web", ip := "", extra := [] }).1 =
      .ok { token := "t1", refreshToken := "", expireTime := 100,
            userInfo := { id := "u", username := "u", roles := [], extra := [] } } ∧
    ∃ ui, (engineVerify
      { tokenExpire := 100, refreshExpire := 0, tokenStyle := .styleUUID,
        loginMode := .multiLogin, autoRenew := true, rememberDays := 0 }
      (engineLogin
        { tokenExpire := 100, refreshExpire := 0, tokenStyle := .styleUUID,
          loginMode := .multiLogin, autoRenew := true, rememberDays := 0 }
        { style := .styleUUID, customFunc := none } "t1" "" [] 0
        { userID := "u", device := "web", ip := "", extra := [] }).2 0
      ({ token := "t1", refreshToken := "", expireTime := 100,
         userInfo := { id := "u", username := "u", roles := [], extra := [] } }
        : LoginResponse).token).1 = .ok ui ∧
      ui.id = ({ userID := "u", device := "web", ip := "", extra := [] }
        : LoginRequest).userID :=
  ⟨by decide, login_then_verify_same_user
    { tokenExpire := 100, refreshExpire := 0, tokenStyle := .styleUUID,
      loginMode := .multiLogin, autoRenew := true, rememberDays := 0 }
    { style := .styleUUID, customFunc := none } "t1" "" [] 0
    { userID := "u", device := "web", ip := "", extra := [] }
    { token := "t1", refreshToken := "", expireTime := 100,
      userInfo := { id := "u", username := "u", roles := [], extra := [] } }
    (by decide)⟩

/-! ## Claim C4 -/

/-- Claim C4: for a stored, unexpired refresh token (with a well-formed
owner id, non-colliding fresh generator outputs and a non-custom token
style), RefreshAccessToken succeeds with non-empty new access and refresh
tokens, deletes the old refresh record, makes a subsequent
RefreshAccessToken on the old refresh token fail, lets Verify succeed on the
new access token, and stores the new RefreshTokenInfo with absolute expiry
equal to the rotation instant plus the configured refresh TTL (not the
remaining lifetime of the old record). -/
theorem refresh_rotation_spec (cfg : Config) (g : Generator) (e1 e2 e3 e4 : String)
    (st : Store) (now now2 : Nat) (rt : String) (ri : RefreshTokenInfo)
    (hrt : rt ≠ "")
    (hstored : (storeGet st now (refreshTokenKey rt)).1 = .ok (.refresh ri))
    (hunexp : ¬ now > ri.expiresAt)
    (huid : ri.userID ≠ "")
    (hsty : g.style ≠ TokenStyle.styleCustom)
    (he1 : e1 ≠ "") (he2 : e2 ≠ "") (hfresh : e2 ≠ rt) :
    ∃ resp, (refreshAccessToken cfg g e1 e2 st now rt).1 = .ok resp ∧
      resp.token = e1 ∧ resp.refreshToken = e2 ∧
      resp.token ≠ "" ∧ resp.refreshToken ≠ "" ∧
      findEntry (refreshAccessToken cfg g e1 e2 st now rt).2 (refreshTokenKey rt) = none ∧
      (∃ er, (refreshAccessToken cfg g e3 e4
        (refreshAccessToken cfg g e1 e2 st now rt).2 now2 rt).1 = .error er) ∧
      (findEntry (refreshAccessToken cfg g e1 e2 st now rt).2
          (refreshTokenKey e2)).map (fun e => e.val) =
        some (.refresh { refreshToken := e2, userID := ri.userID, device := ri.device,
                         createdAt := now, expiresAt := now + cfg.refreshExpire,
                         extra := ri.extra }) ∧
      (engineVerify cfg (refreshAccessToken cfg g e1 e2 st now rt).2 now e1).1 =
        .ok { id := ri.userID, username := ri.userID, roles := [], extra := [] } := by
  have hst2 := storeGet_ok_state st now (refreshTokenKey rt) _ hstored
  have hget : storeGet st now (refreshTokenKey rt) = (.ok (.refresh ri), st) := by
    have heta : storeGet st now (refreshTokenKey rt) =
        ((storeGet st now (refreshTokenKey rt)).1,
         (storeGet st now (refreshTokenKey rt)).2) := rfl
    rw [heta, hstored, hst2]
  have hgen : ∀ (ent : String) (ex : Extra), generate g ent ex = .ok ent := by
    intro ent ex
    unfold generate
    cases hgs : g.style
    case styleCustom => exact absurd hgs hsty
    all_goals rfl
  rcases hR : refreshAccessToken cfg g e1 e2 st now rt with ⟨rr, ST⟩
  unfold refreshAccessToken at hR
  rw [if_neg hrt] at hR
  unfold getRefreshTokenInfo at hR
  rw [hget] at hR
  dsimp only at hR
  rw [if_neg hunexp, hgen, hgen] at hR
  dsimp only at hR
  rw [createSession] at hR
  dsimp only at hR
  rw [if_neg he1, if_neg huid] at hR
  dsimp only at hR
  have h1 := congrArg Prod.fst hR
  have h2 := congrArg Prod.snd hR
  dsimp only at h1 h2
  subst h1
  have hnone : findEntry ST (refreshTokenKey rt) = none := by
    rw [← h2]
    rw [findEntry_set_ne _ _ _ _ _ _ (refreshTokenKey_ne_of_ne rt e2 (Ne.symm hfresh))]
    rw [findEntry_set_ne _ _ _ _ _ _
      (Ne.symm (loginInfoKey_ne_refreshTokenKey e1 rt))]
    rw [findEntry_set_ne _ _ _ _ _ _ (refreshTokenKey_ne_userSessionKey rt ri.userID e1)]
    rw [findEntry_set_ne _ _ _ _ _ _ (Ne.symm (sessionKey_ne_refreshTokenKey e1 rt))]
    exact findEntry_delete_self st (refreshTokenKey rt)
  have hrec : findEntry ST (refreshTokenKey e2) =
      some ⟨refreshTokenKey e2,
        .refresh { refreshToken := e2, userID := ri.userID, device := ri.device,
                   createdAt := now, expiresAt := now + cfg.refreshExpire,
                   extra := ri.extra }, expOf now cfg.refreshExpire⟩ := by
    rw [← h2]
    exact findEntry_set_self _ _ _ _ _
  have hfe : findEntry ST (loginInfoKey e1) =
      some ⟨loginInfoKey e1,
        .login { userID := ri.userID, token := e1, device := "", ip := "",
                 loginTime := now, lastAccess := now, extra := [] },
        expOf now cfg.tokenExpire⟩ := by
    rw [← h2]
    rw [findEntry_set_ne _ _ _ _ _ _ (loginInfoKey_ne_refreshTokenKey e1 e2)]
    exact findEntry_set_self _ _ _ _ _
  have hfs : findEntry ST (sessionKey e1) =
      some ⟨sessionKey e1,
        .sess { id := e1, userID := ri.userID, token := e1, device := "", ip := "",
                loginTime := now, lastAccess := now, extra := [] },
        expOf now cfg.tokenExpire⟩ := by
    rw [← h2]
    rw [findEntry_set_ne _ _ _ _ _ _ (sessionKey_ne_refreshTokenKey e1 e2)]
    rw [findEntry_set_ne _ _ _ _ _ _ (sessionKey_ne_loginInfoKey e1 e1)]
    rw [findEntry_set_ne _ _ _ _ _ _ (sessionKey_ne_userSessionKey e1 ri.userID e1)]
    exact findEntry_set_self _ _ _ _ _
  refine ⟨_, rfl, rfl, rfl, he1, he2, hnone, ?_, ?_, ?_⟩
  · unfold refreshAccessToken getRefreshTokenInfo storeGet
    rw [if_neg hrt, hnone]
    exact ⟨_, rfl⟩
  · rw [hrec]
    rfl
  · exact engineVerify_fresh_records cfg ST now e1 he1 ri.userID "" "" []
      { id := e1, userID := ri.userID, token := e1, device := "", ip := "",
        loginTime := now, lastAccess := now, extra := [] } hfe hfs

/-- Witness for C4: a concrete rotation of refresh token "r0" held by "u". -/
theorem refresh_rotation_spec_witness :
    (("r0" : String) ≠ "" ∧
     (storeGet (storeSet [] 0 (refreshTokenKey "r0")
        (.refresh { refreshToken := "r0", userID := "u", device := "web",
                    createdAt := 0, expiresAt := 100, extra := [] }) 50) 10
        (refreshTokenKey "r0")).1 =
       .ok (.refresh { refreshToken := "r0", userID := "u", device := "web",
                       createdAt := 0, expiresAt := 100, extra := [] }) ∧
     ¬ (10 : Nat) > 100 ∧ ("u" : String) ≠ "" ∧
     ({ style := .styleUUID, customFunc := none } : Generator).style ≠
       TokenStyle.styleCustom ∧
     ("a1" : String) ≠ "" ∧ ("r1" : String) ≠ "" ∧ ("r1" : String) ≠ "r0") ∧
    (∃ resp, (refreshAccessToken
        { tokenExpire := 100, refreshExpire := 200, tokenStyle := .styleUUID,
          loginMode := .multiLogin, autoRenew := true, rememberDays := 0 }
        { style := .styleUUID, customFunc := none } "a1" "r1"
        (storeSet [] 0 (refreshTokenKey "r0")
          (.refresh { refreshToken := "r0", userID := "u", device := "web",
                      createdAt := 0, expiresAt := 100, extra := [] }) 50) 10 "r0").1 =
        .ok resp ∧
      resp.token = "a1" ∧ resp.refreshToken = "r1" ∧
      resp.token ≠ "" ∧ resp.refreshToken ≠ "" ∧
      findEntry (refreshAccessToken
        { tokenExpire := 100, refreshExpire := 200, tokenStyle := .styleUUID,
          loginMode := .multiLogin, autoRenew := true, rememberDays := 0 }
        { style := .styleUUID, customFunc := none } "a1" "r1"
        (storeSet [] 0 (refreshTokenKey "r0")
          (.refresh { refreshToken := "r0", userID := "u", device := "web",
                      createdAt := 0, expiresAt := 100, extra := [] }) 50) 10 "r0").2
        (refreshTokenKey "r0") = none ∧
      (∃ er, (refreshAccessToken
        { tokenExpire := 100, refreshExpire := 200, tokenStyle := .styleUUID,
          loginMode := .multiLogin, autoRenew := true, rememberDays := 0 }
        { style := .styleUUID, customFunc := none } "a2" "r2"
        (refreshAccessToken
          { tokenExpire := 100, refreshExpire := 200, tokenStyle := .styleUUID,
            loginMode := .multiLogin, autoRenew := true, rememberDays := 0 }
          { style := .styleUUID, customFunc := none } "a1" "r1"
          (storeSet [] 0 (refreshTokenKey "r0")
            (.refresh { refreshToken := "r0", userID := "u", device := "web",
                        createdAt := 0, expiresAt := 100, extra := [] }) 50) 10 "r0").2
        10 "r0").1 = .error er) ∧
      (findEntry (refreshAccessToken
        { tokenExpire := 100, refreshExpire := 200, tokenStyle := .styleUUID,
          loginMode := .multiLogin, autoRenew := true, rememberDays := 0 }
        { style := .styleUUID, customFunc := none } "a1" "r1"
        (storeSet [] 0 (refreshTokenKey "r0")
          (.refresh { refreshToken := "r0", userID := "u", device := "web",
                      createdAt := 0, expiresAt := 100, extra := [] }) 50) 10 "r0").2
        (refreshTokenKey "r1")).map (fun e => e.val) =
        some (.refresh { refreshToken := "r1", userID := "u", device := "web",
                         createdAt := 10, expiresAt := 210, extra := [] }) ∧
      (engineVerify
        { tokenExpire := 100, refreshExpire := 200, tokenStyle := .styleUUID,
          loginMode := .multiLogin, autoRenew := true, rememberDays := 0 }
        (refreshAccessToken
          { tokenExpire := 100, refreshExpire := 200, tokenStyle := .styleUUID,
            loginMode := .multiLogin, autoRenew := true, rememberDays := 0 }
          { style := .styleUUID, customFunc := none } "a1" "r1"
          (storeSet [] 0 (refreshTokenKey "r0")
            (.refresh { refreshToken := "r0", userID := "u", device := "web",
                        createdAt := 0, expiresAt := 100, extra := [] }) 50) 10 "r0").2
        10 "a1").1 =
        .ok { id := "u", username := "u", roles := [], extra := [] }) :=
  ⟨⟨by decide, by decide, by decide, by decide, by decide, by decide, by decide, by decide⟩,
   refresh_rotation_spec
    { tokenExpire := 100, refreshExpire := 200, tokenStyle := .styleUUID,
      loginMode := .multiLogin, autoRenew := true, rememberDays := 0 }
    { style := .styleUUID, customFunc := none } "a1" "r1" "a2" "r2"
    (storeSet [] 0 (refreshTokenKey "r0")
      (.refresh { refreshToken := "r0", userID := "u", device := "web",
                  createdAt := 0, expiresAt := 100, extra := [] }) 50) 10 10 "r0"
    { refreshToken := "r0", userID := "u", device := "web",
      createdAt := 0, expiresAt := 100, extra := [] }
    (by decide) (by decide) (by decide) (by decide) (by decide) (by decide) (by decide)
    (by decide)⟩
